import Mathlib

/-!
Shallow embedding of the Xenix ML tuning subsystem
(src/server/business/ml/...): the structured-output event protocol,
the parameter-grid handling, the progress-instrumented grid search,
the tuning and prediction orchestrators, the model-catalog scan, and
the AdaBoost create_model parameter routing.

Python floats are modelled as rationals, Python dicts as association
lists with unique keys, fallible code as Except over an error-kind
type, and the external estimators (scikit-learn fit/predict) as an
abstract pure function parameter, per the spec's collaborator contract.
-/

deriving instance DecidableEq for Except

namespace Xenix

/-- Model of the Python values that flow through the tuning subsystem:
ints, floats (as rationals), strings and booleans. -/
inductive PyVal where
  | int (i : Int)
  | float (q : Rat)
  | str (s : String)
  | bool (b : Bool)
deriving DecidableEq, Repr

/-- A Python dict (string keys), modelled as an association list in
insertion order with unique keys. -/
abbrev Dict (α : Type) := List (String × α)

/-- Dict key lookup (first match). -/
def dictLookup {α : Type} : Dict α → String → Option α
  | [], _ => none
  | (k, v) :: rest, key => if k = key then some v else dictLookup rest key

/-- Membership test for a dict key, mirroring Python `key in d`. -/
def dictContains {α : Type} (d : Dict α) (key : String) : Bool :=
  (dictLookup d key).isSome

/-- Removal of a key, mirroring the effect of Python `d.pop(key)` on `d`. -/
def dictErase {α : Type} (d : Dict α) (key : String) : Dict α :=
  d.filter (fun p => p.1 != key)

/-- Set a key to a value: replace in place if present, else append,
mirroring Python dict assignment. -/
def dictSet {α : Type} : Dict α → String → α → Dict α
  | [], key, v => [(key, v)]
  | (k, w) :: rest, key, v =>
    if k = key then (key, v) :: rest else (k, w) :: dictSet rest key v

/-- Apply every entry of `upd` as an assignment over `base`, mirroring
scikit-learn `estimator.set_params(**upd)` on the parameter dict. -/
def dictUpdate {α : Type} (base upd : Dict α) : Dict α :=
  upd.foldl (fun d p => dictSet d p.1 p.2) base

/-- A parameter grid: parameter name to ordered candidate-value list,
in declaration order (spec section 3, src regression ParamGrid classes). -/
abbrev ParamGrid := List (String × List PyVal)

/-- Error kinds raised by the embedded Python code. The last two
constructors name classes that appear only in the spec's error
taxonomy (section 7); no definition in this file ever produces them,
because no such exception class exists anywhere in the source. -/
inductive ErrKind where
  | valueError (msg : String)
  | importError (msg : String)
  | attributeError (msg : String)
  | keyError (msg : String)
  | validationError (msg : String)
  | ioError (msg : String)
  | configurationError (msg : String)
  | schemaError (msg : String)
deriving DecidableEq, Repr

/-- Whether a failed computation failed with the spec's
`ConfigurationError`. -/
def isConfigErr {α : Type} : Except ErrKind α → Bool
  | .error (.configurationError _) => true
  | _ => false

/-- Code-point comparison of character lists, the order Python string
comparison uses. -/
def charListLe : List Char → List Char → Bool
  | [], _ => true
  | _ :: _, [] => false
  | a :: as, b :: bs =>
    if a.toNat < b.toNat then true
    else if b.toNat < a.toNat then false
    else charListLe as bs

/-- Python string comparison (lexicographic by code point). -/
def strLe (a b : String) : Bool := charListLe a.data b.data

/-- Whether the first string is a prefix of the second, by code points. -/
def charListPre : List Char → List Char → Bool
  | [], _ => true
  | _ :: _, [] => false
  | a :: as, b :: bs => if a.toNat = b.toNat then charListPre as bs else false

/-- Python str.startswith. -/
def strStartsWith (s pre : String) : Bool := charListPre pre.data s.data

/-- Insert one grid item into a key-sorted grid (helper for the
sorted item order used by the external grid expander). -/
def insertByKey (p : String × List PyVal) : ParamGrid → ParamGrid
  | [] => [p]
  | q :: rest => if strLe p.1 q.1 then p :: q :: rest else q :: insertByKey p rest

/-- Sort grid items by parameter name, mirroring `sorted(p.items())`
inside the external grid expander. -/
def sortItems (g : ParamGrid) : ParamGrid :=
  g.foldr insertByKey []

/-- Cartesian product of the candidate-value lists, key order
preserved, rightmost parameter varying fastest (itertools.product). -/
def gridCombos : ParamGrid → List (Dict PyVal)
  | [] => [[]]
  | (k, vs) :: rest =>
    vs.flatMap (fun v => (gridCombos rest).map (fun c => (k, v) :: c))

/-- Size of the cartesian product of a grid's value sequences. -/
def gridProduct (g : ParamGrid) : Nat :=
  (g.map (fun p => p.2.length)).prod

/-- Modelled from sklearn.model_selection.ParameterGrid (the external
collaborator used at ridge.py:58-59 and the other tune methods): it
validates that every candidate sequence is non-empty, raising
ValueError otherwise, and enumerates the cartesian product over
key-sorted items. -/
def parameterGridMake (g : ParamGrid) : Except ErrKind (List (Dict PyVal)) :=
  match g.find? (fun p => p.2.isEmpty) with
  | some p =>
    .error (.valueError
      ("Parameter grid for parameter " ++ p.1 ++ " need to be a non-empty sequence"))
  | none => .ok (gridCombos (sortItems g))

theorem gridCombos_length (g : ParamGrid) :
    (gridCombos g).length = gridProduct g := by
  induction g with
  | nil => simp [gridCombos, gridProduct]
  | cons p rest ih =>
    simp [gridCombos, gridProduct, List.length_flatMap, List.map_map] at *
    simp [Function.comp_def, ih, gridProduct, Nat.mul_comm]

theorem insertByKey_length (p : String × List PyVal) (g : ParamGrid) :
    (insertByKey p g).length = g.length + 1 := by
  induction g with
  | nil => simp [insertByKey]
  | cons q rest ih =>
    simp only [insertByKey]
    split
    · simp
    · simp [ih]

theorem sortItems_length (g : ParamGrid) :
    (sortItems g).length = g.length := by
  induction g with
  | nil => rfl
  | cons p rest ih => simp [sortItems, insertByKey_length] at *; simp [ih]

/-- Sorting does not change which items the grid holds. -/
theorem insertByKey_mem (p q : String × List PyVal) (g : ParamGrid) :
    q ∈ insertByKey p g ↔ q = p ∨ q ∈ g := by
  induction g with
  | nil => simp [insertByKey]
  | cons r rest ih =>
    simp only [insertByKey]
    split
    · simp [ih]
    · simp [ih]
      tauto

theorem sortItems_mem (g : ParamGrid) (q : String × List PyVal) :
    q ∈ sortItems g ↔ q ∈ g := by
  induction g with
  | nil => simp [sortItems]
  | cons p rest ih =>
    simp only [sortItems, List.foldr_cons] at *
    rw [insertByKey_mem]
    simp [ih]

theorem sortItems_gridProduct (g : ParamGrid) :
    gridProduct (sortItems g) = gridProduct g := by
  induction g with
  | nil => rfl
  | cons p rest ih =>
    have h : ∀ (q : String × List PyVal) (h : ParamGrid),
        gridProduct (insertByKey q h) = q.2.length * gridProduct h := by
      intro q h
      induction h with
      | nil => simp [insertByKey, gridProduct]
      | cons r tail ih2 =>
        simp only [insertByKey]
        split
        · simp [gridProduct]
        · simp [gridProduct] at ih2 ⊢
          rw [ih2]; ring
    simp only [sortItems, List.foldr_cons] at *
    rw [h, ih]
    simp [gridProduct]

/-! ## Progress instrumentation (regression/progress_utils.py) -/

/-- The ProgressInfo payload handed to progress callbacks
(regression/base.py:14-20): percentage, round, total_rounds, a metrics
map and the parameter map of the estimator being scored. -/
structure ProgressInfo where
  percentage : Rat
  round : Nat
  total_rounds : Nat
  metrics : Dict Rat
  params : Dict PyVal
deriving DecidableEq, Repr

/-- One invocation of the scorer closure built by create_progress_scorer
(progress_utils.py:27-41): the one-element counter list is incremented,
then, when a callback was supplied, the callback receives percentage
`current_fit / total_fits * 100`, round `current_fit`, total_rounds
`total_fits`, an empty metrics dict and the estimator's parameters.
Returns the new counter value and the payloads passed to the callback. -/
def progressScorerCall (hasCallback : Bool) (totalFits : Nat) (currentFit : Nat)
    (estParams : Dict PyVal) : Nat × List ProgressInfo :=
  let cf := currentFit + 1
  (cf,
    if hasCallback then
      [{ percentage := (cf : Rat) / (totalFits : Rat) * 100
         round := cf
         total_rounds := totalFits
         metrics := []
         params := estParams }]
    else [])

/-- The sequence of callback payloads over a run of scorer invocations,
threading the mutable counter (initially 0) through the calls in order.
`evals` lists, in execution order, the parameter map of the estimator
handed to each scorer call. -/
def progressScorerEvents (hasCallback : Bool) (totalFits : Nat) :
    Nat → List (Dict PyVal) → List ProgressInfo
  | _, [] => []
  | cf, e :: rest =>
    let step := progressScorerCall hasCallback totalFits cf e
    step.2 ++ progressScorerEvents hasCallback totalFits step.1 rest

/-- The estimator parameter maps handed to the scorer across one grid
search with `cv` folds run sequentially (n_jobs=1): for each parameter
combination, in enumeration order, the scorer is called once per fold
with the base estimator's parameters overridden by that combination. -/
def foldEvalParams (baseParams : Dict PyVal) (combos : List (Dict PyVal))
    (cv : Nat) : List (Dict PyVal) :=
  combos.flatMap (fun c => List.replicate cv (dictUpdate baseParams c))

theorem foldEvalParams_length (baseParams : Dict PyVal)
    (combos : List (Dict PyVal)) (cv : Nat) :
    (foldEvalParams baseParams combos cv).length = combos.length * cv := by
  simp [foldEvalParams, List.length_flatMap, Function.comp_def]

theorem progressScorerEvents_length (totalFits : Nat) (cf : Nat)
    (evals : List (Dict PyVal)) :
    (progressScorerEvents true totalFits cf evals).length = evals.length := by
  induction evals generalizing cf with
  | nil => rfl
  | cons e rest ih => simp [progressScorerEvents, progressScorerCall, ih]

/-- Every payload of a run with a callback carries total_rounds equal
to the totalFits argument fixed before the run. -/
theorem progressScorerEvents_total_rounds (hasCallback : Bool)
    (totalFits : Nat) (cf : Nat) (evals : List (Dict PyVal)) :
    ∀ e ∈ progressScorerEvents hasCallback totalFits cf evals,
      e.total_rounds = totalFits := by
  induction evals generalizing cf with
  | nil => simp [progressScorerEvents]
  | cons x rest ih =>
    intro e he
    simp only [progressScorerEvents, progressScorerCall, List.mem_append] at he
    rcases he with h | h
    · split at h <;> simp_all
    · exact ih _ e h

/-- The rounds of a run started at counter value cf are
cf+1, cf+2, ..., cf+n in order. -/
theorem progressScorerEvents_rounds (totalFits : Nat) (cf : Nat)
    (evals : List (Dict PyVal)) :
    (progressScorerEvents true totalFits cf evals).map (fun e => e.round)
      = List.range' (cf + 1) evals.length := by
  induction evals generalizing cf with
  | nil => rfl
  | cons e rest ih =>
    simp [progressScorerEvents, progressScorerCall, List.range'_succ, ih]

/-- Each payload's percentage is its round over total_rounds times 100,
and its metrics map is empty. -/
theorem progressScorerEvents_shape (totalFits : Nat) (cf : Nat)
    (evals : List (Dict PyVal)) :
    ∀ e ∈ progressScorerEvents true totalFits cf evals,
      e.percentage = (e.round : Rat) / (totalFits : Rat) * 100 ∧ e.metrics = [] := by
  induction evals generalizing cf with
  | nil => simp [progressScorerEvents]
  | cons x rest ih =>
    intro e he
    simp only [progressScorerEvents, progressScorerCall, List.mem_append,
      List.mem_singleton, if_pos] at he
    rcases he with h | h
    · subst h; exact ⟨rfl, rfl⟩
    · exact ih _ e h

/-- The params of the successive payloads are exactly the estimator
parameter maps of the successive fold evaluations. -/
theorem progressScorerEvents_params (totalFits : Nat) (cf : Nat)
    (evals : List (Dict PyVal)) :
    (progressScorerEvents true totalFits cf evals).map (fun e => e.params)
      = evals := by
  induction evals generalizing cf with
  | nil => rfl
  | cons e rest ih => simp [progressScorerEvents, progressScorerCall, ih]

/-! ## Pydantic ParamGrid classes (regression/<model>.py, tune_model.py:87-101) -/

/-- Candidate-value element type of a declared grid field
(`list[int]` or `list[float]` in the pydantic classes). -/
inductive PyTy where
  | int
  | float
deriving DecidableEq, Repr

/-- One declared field of a pydantic ParamGrid class: its name, its
element type and its default candidate-value list. -/
structure PGField where
  name : String
  elemTy : PyTy
  dflt : List PyVal
deriving DecidableEq, Repr

/-- A pydantic ParamGrid class: its fields in declaration order. -/
abbrev ParamGridClass := List PGField

/-- Pydantic element coercion: ints are accepted for float fields. -/
def coerceElem : PyTy → PyVal → Option PyVal
  | .int, .int i => some (.int i)
  | .float, .float q => some (.float q)
  | .float, .int i => some (.float (i : Rat))
  | _, _ => none

/-- Pydantic assignment of one declared field: the caller's value when
the key is present (with element coercion; a non-coercible element
raises ValidationError) and the declared default when absent. -/
def instantiateField (d : Dict (List PyVal)) (f : PGField) :
    Except ErrKind (String × List PyVal) :=
  match dictLookup d f.name with
  | none => .ok (f.name, f.dflt)
  | some vs =>
    match vs.mapM (coerceElem f.elemTy) with
    | some ws => .ok (f.name, ws)
    | none => .error (.validationError ("validation error for field " ++ f.name))

/-- Instantiating `ParamGridClass(**d)` followed by
`model_dump(exclude_none=True)` (pydantic v2): every declared field is
assigned in declaration order; keys not matching a declared field are
ignored. No field is None, so exclude_none drops nothing. -/
def instantiateGridClass (cls : ParamGridClass) (d : Dict (List PyVal)) :
    Except ErrKind ParamGrid :=
  cls.mapM (instantiateField d)

/-- The custom-grid conversion of tune_model.py:87-101: when a
non-empty custom dict is supplied and the Model declares a ParamGrid
class, try to instantiate it; on a validation failure only a warning
is logged and the instance stays None (so the default grid is used).
An empty dict is falsy in Python, so it never enters the branch. -/
def buildParamGridInstance (gridClass : Option ParamGridClass)
    (customGrid : Option (Dict (List PyVal))) : Option ParamGrid :=
  match customGrid with
  | none => none
  | some d =>
    if d.isEmpty then none
    else
      match gridClass with
      | none => none
      | some cls =>
        match instantiateGridClass cls d with
        | .ok g => some g
        | .error _ => none

/-! ## Evaluation metrics (sklearn.metrics collaborators) -/

/-- Arithmetic mean of a list of rationals. -/
def meanQ (xs : List Rat) : Rat := xs.sum / (xs.length : Rat)

/-- Mean squared error of paired truths and predictions. -/
def mseQ (y yPred : List Rat) : Rat :=
  meanQ ((y.zip yPred).map (fun p => (p.1 - p.2) ^ 2))

/-- Mean absolute error of paired truths and predictions. -/
def maeQ (y yPred : List Rat) : Rat :=
  meanQ ((y.zip yPred).map (fun p => |p.1 - p.2|))

/-- Coefficient of determination of paired truths and predictions. -/
def r2Q (y yPred : List Rat) : Rat :=
  let ssRes := ((y.zip yPred).map (fun p => (p.1 - p.2) ^ 2)).sum
  let ssTot := (y.map (fun v => (v - meanQ y) ^ 2)).sum
  1 - ssRes / ssTot

/-! ## Cross-validation folds and the grid search (external GridSearchCV
with cv=5, n_jobs=1, and the progress scorer) -/

/-- Number of rows in test fold i of a k-fold split of n rows:
the first n mod k folds get one extra row. -/
def kfoldFoldSize (n k i : Nat) : Nat :=
  n / k + (if i < n % k then 1 else 0)

/-- Start offset of test fold i of a contiguous k-fold split. -/
def kfoldStart (n k i : Nat) : Nat :=
  i * (n / k) + min i (n % k)

/-- Row indices of test fold i: contiguous, unshuffled, as the default
cross-validation splitter of the external search engine assigns them. -/
def kfoldTestIdx (n k i : Nat) : List Nat :=
  List.range' (kfoldStart n k i) (kfoldFoldSize n k i)

/-- Row indices of the training side of fold i. -/
def kfoldTrainIdx (n k i : Nat) : List Nat :=
  (List.range n).filter (fun j => !(kfoldTestIdx n k i).contains j)

/-- Select the rows of xs at the given indices, in index-list order. -/
def selectIdx {α : Type} (xs : List α) (idx : List Nat) : List α :=
  idx.filterMap (fun i => xs[i]?)

/-- The external estimator collaborator (spec section 6): given the
estimator's parameters, training features, training targets and query
features, it returns predictions for the query rows. It is a pure
function: fitting with fixed parameters and fixed hyperparameter seeds
is deterministic. -/
abbrev Fitter := Dict PyVal → List (List Rat) → List Rat → List (List Rat) → List Rat

/-- Score of one fold evaluation: fit on the training side, predict
the test side, return negative mean squared error (the score the
progress scorer returns at progress_utils.py:43-45). -/
def comboFoldScore (fitter : Fitter) (estParams : Dict PyVal)
    (x : List (List Rat)) (y : List Rat) (i : Nat) : Rat :=
  let te := kfoldTestIdx y.length 5 i
  let tr := kfoldTrainIdx y.length 5 i
  let preds := fitter estParams (selectIdx x tr) (selectIdx y tr) (selectIdx x te)
  Neg.neg (mseQ (selectIdx y te) preds)

/-- Mean fold score of one parameter combination over the 5 folds. -/
def comboMeanScore (fitter : Fitter) (baseParams : Dict PyVal)
    (x : List (List Rat)) (y : List Rat) (c : Dict PyVal) : Rat :=
  meanQ ((List.range 5).map (comboFoldScore fitter (dictUpdate baseParams c) x y))

/-- Index of the first maximum of a list of scores (the stable
first-encountered tie-break of the external search engine). -/
def argmaxFirst (xs : List Rat) : Nat :=
  (xs.foldl
    (fun (acc : Nat × Nat × Option Rat) v =>
      match acc with
      | (_, i, none) => (i, i + 1, some v)
      | (best, i, some b) => if b < v then (i, i + 1, some v) else (best, i + 1, some b))
    (0, 0, none)).1

/-- The dictionary returned by the tune methods (ridge.py:79-83):
best_params, best_score, and the refit best estimator, the latter
represented by its full parameter map. -/
structure TuneResult where
  best_params : Dict PyVal
  best_score : Rat
  modelParams : Dict PyVal
deriving DecidableEq, Repr

/-- A registered regression model unit: its declared default grid, the
parameter map of its unconfigured base estimator (restricted to the
tunable surface), its pydantic ParamGrid class when the generic base
is subscripted, and whether the module defines a Model attribute. -/
structure RegressionUnit where
  defaultGrid : ParamGrid
  baseParams : Dict PyVal
  gridClass : Option ParamGridClass := none
  hasModelAttr : Bool := true

/-- The tune method shared by the instrumented model units
(ridge.py:32-83; adaboost, random_forest, gbdt and the other
instrumented units are textually identical up to the base estimator):
choose the supplied grid or the default, expand it through the
external grid expander (which rejects empty candidate sequences before
any fit), fix total_fits as the combination count times 5 before the
search, then run the 5-fold sequential search with the progress
scorer. Returns the tune result and the callback payload sequence. -/
def modelTune (fitter : Fitter) (unit : RegressionUnit)
    (paramGrid : Option ParamGrid) (x : List (List Rat)) (y : List Rat)
    (hasCallback : Bool) : Except ErrKind (TuneResult × List ProgressInfo) := do
  let grid := paramGrid.getD unit.defaultGrid
  let combos ← parameterGridMake grid
  let totalFits := combos.length * 5
  let events := progressScorerEvents hasCallback totalFits 0
    (foldEvalParams unit.baseParams combos 5)
  let scores := combos.map (comboMeanScore fitter unit.baseParams x y)
  let bi := argmaxFirst scores
  let bestCombo := combos.getD bi []
  .ok ({ best_params := bestCombo
         best_score := scores.getD bi 0
         modelParams := dictUpdate unit.baseParams bestCombo }, events)

/-! ## Train/test split (tune_model.py:56-58, sklearn collaborator) -/

/-- One step of a linear congruential generator, standing in for the
collaborator's pseudo-random stream. -/
def lcgNext (s : Nat) : Nat := (s * 1103515245 + 12345) % 2147483648

/-- Fisher-Yates style draw of a permutation driven by the generator;
fuel bounds the recursion by the list length. -/
def shuffleGo : Nat → Nat → List Nat → List Nat
  | 0, _, _ => []
  | fuel + 1, s, l =>
    if l.length = 0 then []
    else
      let k := s % l.length
      l.getD k 0 :: shuffleGo fuel (lcgNext s) (l.eraseIdx k)

/-- Modelled from the sklearn train_test_split collaborator: the
deterministic permutation of 0..n-1 drawn from the seeded generator. -/
def shuffleIndices (seed n : Nat) : List Nat :=
  shuffleGo n (lcgNext (seed + n)) (List.range n)

/-- Row-index partition produced by train_test_split. -/
structure SplitIdx where
  trainIdx : List Nat
  testIdx : List Nat
deriving DecidableEq, Repr

/-- Ceiling of a rational as a natural number. -/
def ceilFrac (q : Rat) : Nat := q.ceil.toNat

/-- Modelled from the sklearn train_test_split collaborator
(tune_model.py:56-58): the test side takes ceil(test_size * n) rows of
a permutation drawn from a generator seeded with random_state when one
is given; when random_state is None the generator draws on ambient
process entropy, modelled by the entropy parameter. -/
def trainTestSplit (n : Nat) (testSize : Rat) (randomState : Option Nat)
    (entropy : Nat) : SplitIdx :=
  let seed := randomState.getD entropy
  let perm := shuffleIndices seed n
  let nTest := ceilFrac (testSize * (n : Rat))
  { trainIdx := perm.drop nTest, testIdx := perm.take nTest }

theorem shuffleGo_length (fuel : Nat) :
    ∀ (s : Nat) (l : List Nat), (shuffleGo fuel s l).length = min fuel l.length := by
  induction fuel with
  | zero => intro s l; simp [shuffleGo]
  | succ f ih =>
    intro s l
    rw [shuffleGo]
    by_cases h : l.length = 0
    · simp [h]
    · have hk : s % l.length < l.length := Nat.mod_lt _ (Nat.pos_of_ne_zero h)
      simp only [h, if_false, List.length_cons, ih]
      rw [List.length_eraseIdx_of_lt hk]
      omega

theorem shuffleIndices_length (seed n : Nat) :
    (shuffleIndices seed n).length = n := by
  simp [shuffleIndices, shuffleGo_length]

theorem trainTestSplit_testIdx_length (n : Nat) (testSize : Rat)
    (randomState : Option Nat) (entropy : Nat) :
    (trainTestSplit n testSize randomState entropy).testIdx.length
      = min (ceilFrac (testSize * (n : Rat))) n := by
  simp [trainTestSplit, shuffleIndices_length]

/-! ## Structured output protocol (structured_output.py) -/

/-- The six train/test metrics assembled at tune_model.py:115-122. -/
structure Metrics6 where
  mse_train : Rat
  mae_train : Rat
  r2_train : Rat
  mse_test : Rat
  mae_test : Rat
  r2_test : Rat
deriving DecidableEq, Repr

/-- The three metrics returned by a model's evaluate (ridge.py:100-104). -/
structure Metrics3 where
  mse : Rat
  mae : Rat
  r2 : Rat
deriving DecidableEq, Repr

/-- One JSON object written as a single line to stdout. Each
constructor is one shape the source can print: the four emit functions
of structured_output.py, and the hand-rolled result_info dictionary of
predict.py:118-126. -/
inductive OutEvent where
  | log (severityText : String) (severityNumber : Nat) (body : String)
  | result (model : String) (params : Dict PyVal) (metrics : Metrics6)
  | comparisonResult (best_model : String)
  | status (status : String) (error : Option String)
  | predictionResult (outputPath : String) (numPredictions : Nat) (model : String)
deriving DecidableEq, Repr

/-- The JSON type discriminator of an event. -/
def OutEvent.ty : OutEvent → String
  | .log .. => "log"
  | .result .. => "result"
  | .comparisonResult .. => "comparison_result"
  | .status .. => "status"
  | .predictionResult .. => "prediction_result"

/-- The discriminator set of the event protocol (spec section 4.5). -/
def allowedEventTypes : List String :=
  ["log", "progress", "result", "comparison_result", "status"]

/-- The OpenTelemetry severity mapping of structured_output.py:13-19,
keyed by the Python logging level; unknown levels map to (0, UNKNOWN). -/
def severityMapping (level : Nat) : Nat × String :=
  if level = 10 then (1, "DEBUG")
  else if level = 20 then (9, "INFO")
  else if level = 30 then (13, "WARNING")
  else if level = 40 then (17, "ERROR")
  else if level = 50 then (21, "CRITICAL")
  else (0, "UNKNOWN")

/-- emit_log (structured_output.py:22-55): severities below INFO (9)
are dropped; otherwise exactly one log event is printed. -/
def emitLog (msg : String) (level : Nat) : List OutEvent :=
  let sv := severityMapping level
  if sv.1 < 9 then [] else [.log sv.2 sv.1 msg]

/-- emit_result (structured_output.py:58-76). -/
def emitResult (model : String) (params : Dict PyVal) (metrics : Metrics6) :
    List OutEvent :=
  [.result model params metrics]

/-- emit_status (structured_output.py:98-114). No orchestrator in the
source ever calls it. -/
def emitStatus (status : String) (error : Option String) : List OutEvent :=
  [.status status error]

/-- The attribute set of StructuredLogger (structured_output.py:117-147):
its five methods. There is no progress method. -/
def structuredLoggerAttrs : List String :=
  ["debug", "info", "warning", "error", "critical"]

/-- Calling a method on a StructuredLogger instance: debug prints to
stderr only, the other four methods emit one log line at their level,
and any other attribute name raises AttributeError (Python attribute
lookup on an object without that attribute). -/
def structuredLoggerCall (method : String) (msg : String) :
    Except ErrKind (List OutEvent) :=
  if method = "debug" then .ok []
  else if method = "info" then .ok (emitLog msg 20)
  else if method = "warning" then .ok (emitLog msg 30)
  else if method = "error" then .ok (emitLog msg 40)
  else if method = "critical" then .ok (emitLog msg 50)
  else .error (.attributeError
    ("StructuredLogger object has no attribute " ++ method))

/-- The progress_callback defined at tune_model.py:66-82: it first
calls logger.progress, then logger.info, then conditionally logs the
metrics and params maps. StructuredLogger has no progress method, so
the first call raises AttributeError and the rest never runs. -/
def progressCallbackEmit (info : ProgressInfo) :
    Except ErrKind (List OutEvent) := do
  let e1 ← structuredLoggerCall "progress" "Tuning progress"
  let e2 ← structuredLoggerCall "info" "Progress"
  let e3 ← if info.metrics.isEmpty then pure []
    else structuredLoggerCall "info" "Current metrics"
  let e4 ← if info.params.isEmpty then pure []
    else structuredLoggerCall "info" "Current params"
  pure (e1 ++ e2 ++ e3 ++ e4)

/-- Stdout events contributed by delivering the payload sequence to
progress_callback: the external search engine catches exceptions
raised while scoring (its error_score handling), so a callback that
raises contributes nothing to stdout and the search continues. -/
def callbackStdoutEvents (infos : List ProgressInfo) : List OutEvent :=
  infos.flatMap (fun i =>
    match progressCallbackEmit i with
    | .ok evs => evs
    | .error _ => [])

theorem progressCallbackEmit_raises (info : ProgressInfo) :
    progressCallbackEmit info
      = .error (.attributeError "StructuredLogger object has no attribute progress") := by
  rfl

theorem callbackStdoutEvents_nil (infos : List ProgressInfo) :
    callbackStdoutEvents infos = [] := by
  induction infos with
  | nil => rfl
  | cons i rest ih =>
    simp [callbackStdoutEvents, progressCallbackEmit_raises] at *

/-! ## Tuning orchestrator (tune_model.py) -/

/-- A data table: rows of named numeric cells, as loaded from a
spreadsheet by the external reader. -/
abbrev Table := List (Dict Rat)

/-- Project one row to named columns; a missing column is a KeyError,
as the external frame raises for an absent label. -/
def projectRow (row : Dict Rat) (cols : List String) :
    Except ErrKind (List Rat) :=
  cols.mapM (fun c =>
    match dictLookup row c with
    | some v => .ok v
    | none => .error (.keyError c))

/-- Project a table to the named feature columns (df[feature_columns]). -/
def projectCols (df : Table) (cols : List String) :
    Except ErrKind (List (List Rat)) :=
  df.mapM (fun r => projectRow r cols)

/-- Project a table to one named column (df[target_column]). -/
def projectCol (df : Table) (col : String) : Except ErrKind (List Rat) :=
  df.mapM (fun r =>
    match dictLookup r col with
    | some v => .ok v
    | none => .error (.keyError col))

/-- The process environment of one run: the readable spreadsheet files,
the importable regression model modules, and the external estimator. -/
structure MLEnv where
  files : Dict Table
  units : Dict RegressionUnit
  fitter : Fitter

/-- pd.read_excel through the environment; a missing file raises. -/
def readExcel (env : MLEnv) (path : String) : Except ErrKind Table :=
  match dictLookup env.files path with
  | some t => .ok t
  | none => .error (.ioError ("No such file or directory: " ++ path))

/-- import_model / import_regression_model (base.py:12-73): the name
must carry the regression prefix; a module that cannot be imported is
an ImportError naming the module; a module without a Model attribute
is an AttributeError. -/
def importModel (env : MLEnv) (name : String) : Except ErrKind RegressionUnit :=
  if strStartsWith name "regression." then
    match dictLookup env.units name with
    | none => .error (.importError ("Model module " ++ name ++ " not found"))
    | some u =>
      if u.hasModelAttr then .ok u
      else .error (.attributeError
        ("Module " ++ name ++ " does not have a Model attribute"))
  else
    .error (.valueError ("Unknown model type for " ++ name))

/-- Evaluate a trained model on data: predict, then the three metrics
(ridge.py:86-104, via the abstract estimator). -/
def evaluateModel (fitter : Fitter) (modelParams : Dict PyVal)
    (xTrain : List (List Rat)) (yTrain : List Rat)
    (x : List (List Rat)) (y : List Rat) : Metrics3 :=
  let preds := fitter modelParams xTrain yTrain x
  { mse := mseQ y preds, mae := maeQ y preds, r2 := r2Q y preds }

/-- The info lines logged for the six metrics (tune_model.py:125-126). -/
def metricLogLines : List OutEvent :=
  (["mse_train", "mae_train", "r2_train", "mse_test", "mae_test", "r2_test"]).flatMap
    (fun k => emitLog k 20)

/-- tune_regression_model (tune_model.py:29-128): load the table,
project features and target, split with test_size 0.2 and
random_state 42, import the model, convert an optional custom grid
through the pydantic ParamGrid class, tune with the progress callback,
evaluate the best model on the train and test partitions, and return
best_params with the six metrics. The first component collects every
stdout event emitted on the way; the second is the returned value or
the exception that aborted the run. -/
def tuneRegressionModelRun (env : MLEnv) (modelName inputFile : String)
    (featureColumns : List String) (targetColumn : String)
    (paramGridDict : Option (Dict (List PyVal))) (entropy : Nat) :
    List OutEvent × Except ErrKind (Dict PyVal × Metrics6) :=
  let evA := emitLog ("Loading training data from " ++ inputFile) 20
  match readExcel env inputFile with
  | .error e => (evA, .error e)
  | .ok df =>
  let evB := evA ++ emitLog "Data loaded" 20
  match projectCols df featureColumns with
  | .error e => (evB, .error e)
  | .ok x =>
  match projectCol df targetColumn with
  | .error e => (evB, .error e)
  | .ok y =>
  let evC := evB ++ emitLog "Features" 20 ++ emitLog "Target" 20
  let split := trainTestSplit df.length (1 / 5) (some 42) entropy
  let xTrain := selectIdx x split.trainIdx
  let xTest := selectIdx x split.testIdx
  let yTrain := selectIdx y split.trainIdx
  let yTest := selectIdx y split.testIdx
  let evD := evC ++ emitLog "Train set / Test set" 20
    ++ emitLog ("Importing regression model for " ++ modelName) 20
  match importModel env modelName with
  | .error e => (evD, .error e)
  | .ok unit =>
  let evE := evD ++ emitLog "Starting hyperparameter tuning with GridSearchCV" 20
  let gridLogs :=
    match paramGridDict with
    | none => []
    | some d =>
      if d.isEmpty then []
      else
        emitLog "Using custom parameter grid" 20 ++
        (match unit.gridClass with
         | none => []
         | some cls =>
           match instantiateGridClass cls d with
           | .ok _ => emitLog "Created param grid instance" 20
           | .error _ => emitLog
               "Failed to create param grid instance. Using provided dict directly." 30)
  let pgi := buildParamGridInstance unit.gridClass paramGridDict
  let evF := evE ++ gridLogs
  match modelTune env.fitter unit pgi xTrain yTrain true with
  | .error e => (evF, .error e)
  | .ok (res, infos) =>
  let evG := evF ++ callbackStdoutEvents infos
    ++ emitLog "Best parameters found" 20 ++ emitLog "Best CV score" 20
    ++ emitLog "Evaluating best model on train and test sets" 20
  let tm := evaluateModel env.fitter res.modelParams xTrain yTrain xTrain yTrain
  let sm := evaluateModel env.fitter res.modelParams xTrain yTrain xTest yTest
  let metrics : Metrics6 :=
    { mse_train := tm.mse, mae_train := tm.mae, r2_train := tm.r2
      mse_test := sm.mse, mae_test := sm.mae, r2_test := sm.r2 }
  let evH := evG ++ emitLog "Model evaluation completed" 20 ++ metricLogLines
  (evH, .ok (res.best_params, metrics))

/-- The stdin configuration document of the tuning entry point
(spec section 6); a missing or falsy field is None here. -/
structure TuneConfig where
  inputFile : Option String := none
  model : Option String := none
  featureColumns : Option (List String) := none
  targetColumn : Option String := none
  paramGrid : Option (Dict (List PyVal)) := none

/-- The human-readable message of an exception. -/
def errMessage : ErrKind → String
  | .valueError m => m
  | .importError m => m
  | .attributeError m => m
  | .keyError m => m
  | .validationError m => m
  | .ioError m => m
  | .configurationError m => m
  | .schemaError m => m

/-- Placeholder body of traceback.format_exc() in the error handler. -/
def tracebackText (e : ErrKind) : String :=
  "Traceback (most recent call last): " ++ errMessage e

/-- Outcome of one process invocation: the stdout event stream, the
process exit code, and the output table written, when any. -/
structure MainOutcome where
  events : List OutEvent
  exitCode : Nat
  outputTable : Option Table := none
deriving Repr

/-- The except-branch of tune_model.main (tune_model.py:186-190): log
the error message and the traceback at ERROR level, then exit(1). No
status event is emitted and no table is written. -/
def tuneMainCatch (events : List OutEvent) (e : ErrKind) : MainOutcome :=
  { events := events
      ++ emitLog ("Error during hyperparameter tuning: " ++ errMessage e) 40
      ++ emitLog (tracebackText e) 40
    exitCode := 1
    outputTable := none }

/-- tune_model.main (tune_model.py:131-190): read the configuration,
check the four required fields (each missing one raises ValueError),
dispatch on the model-name prefix, run the tuning, and on success emit
the single result event; any exception lands in the catch branch. -/
def tuneMain (env : MLEnv) (cfg : TuneConfig) (entropy : Nat) : MainOutcome :=
  let ev0 := emitLog "Reading input configuration from stdin" 20
  match cfg.inputFile with
  | none => tuneMainCatch ev0 (.valueError "inputFile is required")
  | some inputFile =>
  match cfg.model with
  | none => tuneMainCatch ev0 (.valueError "model is required")
  | some modelName =>
  match cfg.featureColumns with
  | none => tuneMainCatch ev0 (.valueError "featureColumns is required")
  | some featureColumns =>
  match cfg.targetColumn with
  | none => tuneMainCatch ev0 (.valueError "targetColumn is required")
  | some targetColumn =>
  let ev1 := ev0 ++ emitLog ("Starting hyperparameter tuning for " ++ modelName) 20
  if strStartsWith modelName "regression." then
    let run := tuneRegressionModelRun env modelName inputFile featureColumns
      targetColumn cfg.paramGrid entropy
    match run.2 with
    | .error e => tuneMainCatch (ev1 ++ run.1) e
    | .ok (bestParams, metrics) =>
      { events := ev1 ++ run.1 ++ emitResult modelName bestParams metrics
          ++ emitLog "Hyperparameter tuning completed successfully!" 20
        exitCode := 0
        outputTable := none }
  else
    tuneMainCatch ev1 (.valueError ("Unknown model type for " ++ modelName))

/-! ## Prediction orchestrator (predict.py) -/

/-- The stdin configuration document of the prediction entry point. -/
structure PredictConfig where
  trainingDataPath : Option String := none
  predictionDataPath : Option String := none
  outputPath : Option String := none
  model : Option String := none
  params : Dict PyVal := []
  featureColumns : Option (List String) := none
  targetColumn : Option String := none

/-- The except-branch of predict.main (predict.py:128-132): two ERROR
log lines and exit(1); no table is written. -/
def predictMainCatch (events : List OutEvent) (e : ErrKind) : MainOutcome :=
  { events := events
      ++ emitLog ("Error during batch prediction: " ++ errMessage e) 40
      ++ emitLog (tracebackText e) 40
    exitCode := 1
    outputTable := none }

/-- predict.main (predict.py:27-132): validate the six required
fields, import the model, retrain on the entire training table with
the supplied params (create_model + fit, modelled by updating the base
estimator's parameters and fitting through the abstract estimator),
predict the prediction table, append a Predicted_Value column, write
the augmented table, and print the terminal result_info object. Note
predict.py:115 calls emit_log with the message "info" as first
argument and the f-string in the level position, so the severity
mapping yields (0, UNKNOWN) and that call prints nothing. The terminal
object of predict.py:118-126 has type prediction_result. -/
def predictMain (env : MLEnv) (cfg : PredictConfig) : MainOutcome :=
  let ev0 := emitLog "Reading input configuration from stdin" 20
  match cfg.trainingDataPath with
  | none => predictMainCatch ev0 (.valueError "trainingDataPath is required")
  | some trainingDataPath =>
  match cfg.predictionDataPath with
  | none => predictMainCatch ev0 (.valueError "predictionDataPath is required")
  | some predictionDataPath =>
  match cfg.outputPath with
  | none => predictMainCatch ev0 (.valueError "outputPath is required")
  | some outputPath =>
  match cfg.model with
  | none => predictMainCatch ev0 (.valueError "model is required")
  | some modelName =>
  match cfg.featureColumns with
  | none => predictMainCatch ev0 (.valueError "featureColumns is required")
  | some featureColumns =>
  match cfg.targetColumn with
  | none => predictMainCatch ev0 (.valueError "targetColumn is required")
  | some targetColumn =>
  let ev1 := ev0 ++ emitLog ("Starting batch prediction using " ++ modelName) 20
    ++ emitLog "Parameters" 20 ++ emitLog ("Importing model for " ++ modelName) 20
  match importModel env modelName with
  | .error e => predictMainCatch ev1 e
  | .ok unit =>
  let ev2 := ev1 ++ emitLog ("Loading training data from " ++ trainingDataPath) 20
  match readExcel env trainingDataPath with
  | .error e => predictMainCatch ev2 e
  | .ok trainingDf =>
  let ev3 := ev2 ++ emitLog "Training data loaded" 20
  match projectCols trainingDf featureColumns with
  | .error e => predictMainCatch ev3 e
  | .ok xTrain =>
  match projectCol trainingDf targetColumn with
  | .error e => predictMainCatch ev3 e
  | .ok yTrain =>
  let modelParams := dictUpdate unit.baseParams cfg.params
  let ev4 := ev3 ++ emitLog ("Creating " ++ modelName ++ " with tuned parameters") 20
    ++ emitLog "Training model on full training dataset" 20
    ++ emitLog "Model training completed" 20
    ++ emitLog ("Loading prediction data from " ++ predictionDataPath) 20
  match readExcel env predictionDataPath with
  | .error e => predictMainCatch ev4 e
  | .ok predictionDf =>
  let ev5 := ev4 ++ emitLog "Prediction data loaded" 20
    ++ emitLog "Generating predictions" 20
  match projectCols predictionDf featureColumns with
  | .error e => predictMainCatch ev5 e
  | .ok xPred =>
  let preds := env.fitter modelParams xTrain yTrain xPred
  let augmented := (predictionDf.zip preds).map
    (fun rp => rp.1 ++ [("Predicted_Value", rp.2)])
  let ev6 := ev5 ++ emitLog "Predictions generated" 20
    ++ emitLog ("Saving predictions to " ++ outputPath) 20
    ++ emitLog "Predictions saved successfully" 20
    ++ emitLog "info" 0
    ++ [.predictionResult outputPath preds.length modelName]
  { events := ev6, exitCode := 0, outputTable := some augmented }

/-! ## Catalog scan (scan_models.py) -/

/-- A Python source file in the regression directory, as the scan sees
it: its file stem, whether importing the module raises, whether the
module defines a Model attribute, and the pydantic ParamGrid class
recovered from the generic base subscription, when any. -/
structure PyUnit where
  stem : String
  importRaises : Option String := none
  hasModelAttr : Bool := true
  gridClass : Option ParamGridClass := none
deriving Repr

/-- The JSON schema pydantic renders for a ParamGrid class, reduced to
the per-field value type (the external model_json_schema collaborator). -/
def paramGridSchema (cls : ParamGridClass) : List (String × String) :=
  cls.map (fun f =>
    (f.name, match f.elemTy with
      | .int => "integer"
      | .float => "number"))

/-- Lowercase an ASCII letter (Python str.title lowercases the tail
of each word). -/
def lowerChar (c : Char) : Char :=
  if 65 ≤ c.toNat && c.toNat ≤ 90 then Char.ofNat (c.toNat + 32) else c

/-- Uppercase an ASCII letter. -/
def upperChar (c : Char) : Char :=
  if 97 ≤ c.toNat && c.toNat ≤ 122 then Char.ofNat (c.toNat - 32) else c

/-- Split a character list on underscores (code point 95). -/
def splitUnderscore : List Char → List (List Char)
  | [] => [[]]
  | c :: rest =>
    let r := splitUnderscore rest
    if c.toNat = 95 then [] :: r
    else (c :: r.headD []) :: r.tail

/-- Capitalize one word: first letter upper, rest lower. -/
def titleWord : List Char → List Char
  | [] => []
  | c :: rest => upperChar c :: rest.map lowerChar

/-- Join words with single spaces. -/
def joinSpace : List (List Char) → List Char
  | [] => []
  | [w] => w
  | w :: rest => w ++ ' ' :: joinSpace rest

/-- Title-cased label derived from the module stem
(scan_models.py:78-79): underscores become spaces, words title-cased,
as str.replace followed by str.title produces. -/
def labelOf (stem : String) : String :=
  ⟨joinSpace ((splitUnderscore stem.data).map titleWord)⟩

/-- One catalog entry (scan_models.py:82-87). -/
structure ModelMetadata where
  category : String
  name : String
  label : String
  param_grid_schema : List (String × String)
deriving DecidableEq, Repr

/-- import_model applied to a scanned file (base.py through
scan_models.py:65): import failure is an ImportError, a missing Model
attribute an AttributeError, a non-regression category a ValueError. -/
def importScanned (category : String) (u : PyUnit) : Except ErrKind Unit :=
  if category = "regression" then
    match u.importRaises with
    | some m => .error (.importError
        ("Model module " ++ category ++ "." ++ u.stem ++ " not found: " ++ m))
    | none =>
      if u.hasModelAttr then .ok ()
      else .error (.attributeError
        ("Module " ++ category ++ "." ++ u.stem ++ " does not have a Model attribute"))
  else
    .error (.valueError ("Unknown model type for " ++ category ++ "." ++ u.stem))

/-- Why one unit was skipped by the scan: an exception caught by the
except-branch of scan_models.py:92-94, or the missing-ParamGrid
warning of scan_models.py:70-72. -/
inductive ScanSkip where
  | errorWarning (msg : String)
  | noParamGridWarning (name : String)
deriving DecidableEq, Repr

/-- Scanning one unit (the loop body of scan_models.py:63-94): import
the model, recover its ParamGrid class from the generic subscription,
render the schema, and build the metadata entry; each failure mode is
recorded and the unit skipped. -/
def scanUnit (category : String) (u : PyUnit) : Except ScanSkip ModelMetadata :=
  match importScanned category u with
  | .error e => .error (.errorWarning
      ("Error scanning " ++ category ++ "." ++ u.stem ++ ": " ++ errMessage e))
  | .ok _ =>
    match u.gridClass with
    | none => .error (.noParamGridWarning (category ++ "." ++ u.stem))
    | some cls =>
      .ok { category := category
            name := category ++ "." ++ u.stem
            label := labelOf u.stem
            param_grid_schema := paramGridSchema cls }

/-- The files the directory loop actually visits: __init__.py and
base.py are skipped up front (scan_models.py:54-57). -/
def scanTargets (units : List PyUnit) : List PyUnit :=
  units.filter (fun u => u.stem != "__init__" && u.stem != "base")

/-- scan_models_in_directory (scan_models.py:40-96): fold over the
visited files, appending metadata for each unit that scans cleanly and
recording a stderr warning for each one that does not; one unit's
failure never stops the loop. Returns the collected metadata and the
recorded warnings. -/
def scanModelsInDirectory (category : String) (units : List PyUnit) :
    List ModelMetadata × List ScanSkip :=
  (scanTargets units).foldl
    (fun acc u =>
      match scanUnit category u with
      | .ok md => (acc.1 ++ [md], acc.2)
      | .error w => (acc.1, acc.2 ++ [w]))
    ([], [])

/-- The catalog document printed by scan_models.main
(scan_models.py:130-140): success, the models of the regression
namespace, and count equal to the length of the models list. -/
structure ScanDoc where
  success : Bool
  models : List ModelMetadata
  count : Nat
deriving DecidableEq, Repr

/-- scan_all_models + main (scan_models.py:99-150) over the regression
directory. -/
def scanMain (units : List PyUnit) : ScanDoc :=
  let models := (scanModelsInDirectory "regression" units).1
  { success := true, models := models, count := models.length }

/-! ## AdaBoost create_model (regression/adaboost.py:92-104) -/

/-- The observable effect of AdaBoostRegressionModel.create_model:
the constructor arguments of the inner DecisionTreeRegressor, the
argument names the AdaBoostRegressor constructor receives, the dict
forwarded to set_params after construction, and the state of the
caller's params dict after the call (params.pop mutates it). -/
structure AdaCreateEffect where
  innerCtorArgs : Dict PyVal
  outerCtorKeys : List String
  setParamsArgs : Dict PyVal
  paramsAfter : Option (Dict PyVal)
deriving DecidableEq, Repr

/-- create_model (adaboost.py:92-104): when params is truthy and holds
the key estimator__max_depth, that entry is popped (mutating the
caller's dict) and its value becomes the inner estimator's max_depth;
otherwise the inner depth is 3. The ensemble constructor receives only
estimator and random_state; whatever remains in params afterwards goes
to set_params. -/
def adaBoostCreateModel (params : Option (Dict PyVal)) : AdaCreateEffect :=
  match params with
  | none =>
    { innerCtorArgs := [("max_depth", .int 3)]
      outerCtorKeys := ["estimator", "random_state"]
      setParamsArgs := []
      paramsAfter := none }
  | some ps =>
    let popped :=
      if !ps.isEmpty && dictContains ps "estimator__max_depth" then
        match dictLookup ps "estimator__max_depth" with
        | some v => (v, dictErase ps "estimator__max_depth")
        | none => (.int 3, ps)
      else (.int 3, ps)
    { innerCtorArgs := [("max_depth", popped.1)]
      outerCtorKeys := ["estimator", "random_state"]
      setParamsArgs := if popped.2.isEmpty then [] else popped.2
      paramsAfter := some popped.2 }

/-- Whether a character list contains two consecutive underscores. -/
def hasDunderAux : List Char → Bool
  | [] => false
  | c :: rest =>
    match rest with
    | c2 :: _ =>
      if c.toNat = 95 && c2.toNat = 95 then true else hasDunderAux rest
    | [] => false

/-- Whether a parameter name contains the double-underscore nesting
separator. -/
def hasDunder (s : String) : Bool := hasDunderAux s.data

/-! ## Concrete model units (from the regression modules) and a sample
environment used to exercise the embedding on closed inputs -/

/-- The default candidate values of RidgeParamGrid (ridge.py:23-25). -/
def ridgeDefaultGrid : ParamGrid :=
  [("model__alpha",
    [.float (1 / 10000), .float (1 / 1000), .float (1 / 100), .float (1 / 10),
     .float 1, .float 10, .float 100])]

/-- The pydantic RidgeParamGrid class (ridge.py:23-25). -/
def ridgeGridClass : ParamGridClass :=
  [{ name := "model__alpha", elemTy := .float,
     dflt := [.float (1 / 10000), .float (1 / 1000), .float (1 / 100),
              .float (1 / 10), .float 1, .float 10, .float 100] }]

/-- The regression.ridge unit (ridge.py): a scale+Ridge pipeline whose
tunable surface is model__alpha, defaulting to 1. -/
def ridgeUnit : RegressionUnit :=
  { defaultGrid := ridgeDefaultGrid
    baseParams := [("model__alpha", .float 1)]
    gridClass := some ridgeGridClass }

/-- The default candidate values of AdaBoostParamGrid (adaboost.py:20-24). -/
def adaBoostDefaultGrid : ParamGrid :=
  [("n_estimators", [.int 50, .int 100, .int 150]),
   ("learning_rate", [.float (1 / 100), .float (1 / 10), .float 1]),
   ("estimator__max_depth", [.int 3, .int 5, .int 7])]

/-- The pydantic AdaBoostParamGrid class (adaboost.py:20-24). -/
def adaBoostGridClass : ParamGridClass :=
  [{ name := "n_estimators", elemTy := .int,
     dflt := [.int 50, .int 100, .int 150] },
   { name := "learning_rate", elemTy := .float,
     dflt := [.float (1 / 100), .float (1 / 10), .float 1] },
   { name := "estimator__max_depth", elemTy := .int,
     dflt := [.int 3, .int 5, .int 7] }]

/-- The regression.adaboost unit (adaboost.py): an AdaBoostRegressor
over a depth-3 decision tree, with its three tunable parameters at
their construction defaults. -/
def adaBoostUnit : RegressionUnit :=
  { defaultGrid := adaBoostDefaultGrid
    baseParams := [("n_estimators", .int 50), ("learning_rate", .float 1),
                   ("estimator__max_depth", .int 3)]
    gridClass := some adaBoostGridClass }

/-- A concrete instance of the external estimator: predicts 0 for
every query row. -/
def constFitter : Fitter := fun _ _ _ q => q.map (fun _ => 0)

/-- A small concrete 10-row table with columns a, b and y. -/
def sampleTable : Table :=
  (List.range 10).map
    (fun i => [("a", (i : Rat)), ("b", (2 * i : Rat)), ("y", (3 * i : Rat))])

/-- A concrete environment holding the sample table and the ridge and
adaboost units. -/
def sampleEnv : MLEnv :=
  { files := [("data.xlsx", sampleTable)]
    units := [("regression.ridge", ridgeUnit), ("regression.adaboost", adaBoostUnit)]
    fitter := constFitter }

/-- The stdin configuration of the unknown-model scenario: the model
identifier regression.doesnotexist over the sample table. -/
def unknownModelCfg : TuneConfig :=
  { inputFile := some "data.xlsx"
    model := some "regression.doesnotexist"
    featureColumns := some ["a", "b"]
    targetColumn := some "y" }

/-! ## Helper lemmas -/

theorem parameterGridMake_ok (g : ParamGrid) (combos : List (Dict PyVal))
    (h : parameterGridMake g = .ok combos) :
    combos = gridCombos (sortItems g) := by
  unfold parameterGridMake at h
  cases hf : g.find? (fun p => p.2.isEmpty) <;> rw [hf] at h <;> simp_all

theorem parameterGridMake_ok_length (g : ParamGrid) (combos : List (Dict PyVal))
    (h : parameterGridMake g = .ok combos) :
    combos.length = gridProduct g := by
  rw [parameterGridMake_ok g combos h, gridCombos_length, sortItems_gridProduct]

theorem dictLookup_erase_self {α : Type} (d : Dict α) (key : String) :
    dictLookup (dictErase d key) key = none := by
  induction d with
  | nil => rfl
  | cons p rest ih =>
    by_cases h : p.1 = key
    · simpa [dictErase, h] using ih
    · simpa [dictErase, dictLookup, h] using ih

theorem instantiateField_ok (d : Dict (List PyVal)) (f : PGField)
    (a : String × List PyVal) (h : instantiateField d f = .ok a) :
    (dictLookup d f.name = none ∧ a = (f.name, f.dflt)) ∨
    (∃ vs ws, dictLookup d f.name = some vs
       ∧ vs.mapM (coerceElem f.elemTy) = some ws ∧ a = (f.name, ws)) := by
  unfold instantiateField at h
  cases hl : dictLookup d f.name with
  | none =>
    rw [hl] at h
    dsimp only at h
    simp only [Except.ok.injEq] at h
    exact Or.inl ⟨rfl, h.symm⟩
  | some vs0 =>
    rw [hl] at h
    dsimp only at h
    cases hc : vs0.mapM (coerceElem f.elemTy) with
    | none => rw [hc] at h; exact Except.noConfusion h
    | some ws0 =>
      rw [hc] at h
      dsimp only at h
      simp only [Except.ok.injEq] at h
      exact Or.inr ⟨vs0, ws0, rfl, hc, h.symm⟩

theorem emitLog_ty (msg : String) (level : Nat) :
    ∀ e ∈ emitLog msg level, e.ty = "log" := by
  intro e he
  simp only [emitLog] at he
  split at he <;> simp_all [OutEvent.ty]

theorem metricLogLines_ty : ∀ e ∈ metricLogLines, e.ty = "log" := by
  decide

/-- Destructuring of a successful modelTune call. -/
theorem modelTune_ok (fitter : Fitter) (unit : RegressionUnit)
    (paramGrid : Option ParamGrid) (x : List (List Rat)) (y : List Rat)
    (hasCallback : Bool) (res : TuneResult) (events : List ProgressInfo)
    (h : modelTune fitter unit paramGrid x y hasCallback = .ok (res, events)) :
    events = progressScorerEvents hasCallback
      (gridProduct (paramGrid.getD unit.defaultGrid) * 5) 0
      (foldEvalParams unit.baseParams
        (gridCombos (sortItems (paramGrid.getD unit.defaultGrid))) 5) := by
  simp only [modelTune] at h
  cases hmk : parameterGridMake (paramGrid.getD unit.defaultGrid) with
  | error e => rw [hmk] at h; simp [Bind.bind, Except.bind] at h
  | ok combos =>
    rw [hmk] at h
    simp only [Bind.bind, Except.bind, Except.ok.injEq, Prod.mk.injEq] at h
    have hc := parameterGridMake_ok _ _ hmk
    have hl := parameterGridMake_ok_length _ _ hmk
    rw [← h.2, hc, ← hl, hc]

/-- Event list of the ridge default-grid search on empty data. -/
def ridgeWitnessEvents : List ProgressInfo :=
  progressScorerEvents true 35 0
    (foldEvalParams ridgeUnit.baseParams (gridCombos (sortItems ridgeDefaultGrid)) 5)

/-- The mean fold scores of the ridge default-grid search on empty
data with the constant fitter. -/
def ridgeWitnessScores : List Rat :=
  (gridCombos (sortItems ridgeDefaultGrid)).map
    (comboMeanScore constFitter ridgeUnit.baseParams [] [])

/-- Tune result of the ridge default-grid search on empty data with
the constant fitter. -/
def ridgeWitnessResult : TuneResult :=
  { best_params := (gridCombos (sortItems ridgeDefaultGrid)).getD
      (argmaxFirst ridgeWitnessScores) []
    best_score := ridgeWitnessScores.getD (argmaxFirst ridgeWitnessScores) 0
    modelParams := dictUpdate ridgeUnit.baseParams
      ((gridCombos (sortItems ridgeDefaultGrid)).getD
        (argmaxFirst ridgeWitnessScores) []) }

/-- Event list of the adaboost default-grid search on empty data. -/
def adaWitnessEvents : List ProgressInfo :=
  progressScorerEvents true 135 0
    (foldEvalParams adaBoostUnit.baseParams
      (gridCombos (sortItems adaBoostDefaultGrid)) 5)

/-- The mean fold scores of the adaboost default-grid search on empty
data with the constant fitter. -/
def adaWitnessScores : List Rat :=
  (gridCombos (sortItems adaBoostDefaultGrid)).map
    (comboMeanScore constFitter adaBoostUnit.baseParams [] [])

/-- Tune result of the adaboost default-grid search on empty data with
the constant fitter. -/
def adaWitnessResult : TuneResult :=
  { best_params := (gridCombos (sortItems adaBoostDefaultGrid)).getD
      (argmaxFirst adaWitnessScores) []
    best_score := adaWitnessScores.getD (argmaxFirst adaWitnessScores) 0
    modelParams := dictUpdate adaBoostUnit.baseParams
      ((gridCombos (sortItems adaBoostDefaultGrid)).getD
        (argmaxFirst adaWitnessScores) []) }

/-- C1: for every model unit and every parameter grid the search
accepts (the declared default when the caller supplies none, else the
caller's), every progress-callback invocation — the first one in
particular — carries total_rounds equal to the size of the cartesian
product of the grid's value sequences multiplied by the fixed
cross-validation fold count 5; the value depends on the grid alone, so
it is fixed before any fold evaluation runs. -/
theorem C1_total_rounds (fitter : Fitter) (unit : RegressionUnit)
    (paramGrid : Option ParamGrid) (x : List (List Rat)) (y : List Rat)
    (res : TuneResult) (events : List ProgressInfo)
    (hok : modelTune fitter unit paramGrid x y true = .ok (res, events)) :
    (∀ e ∈ events,
       e.total_rounds = gridProduct (paramGrid.getD unit.defaultGrid) * 5) ∧
    (∀ e0, events.head? = some e0 →
       e0.total_rounds = gridProduct (paramGrid.getD unit.defaultGrid) * 5) := by
  have hev := modelTune_ok fitter unit paramGrid x y true res events hok
  subst hev
  refine ⟨fun e he => progressScorerEvents_total_rounds _ _ _ _ e he, ?_⟩
  intro e0 h0
  have hm : e0 ∈ progressScorerEvents true
      (gridProduct (paramGrid.getD unit.defaultGrid) * 5) 0
      (foldEvalParams unit.baseParams
        (gridCombos (sortItems (paramGrid.getD unit.defaultGrid))) 5) :=
    List.mem_of_mem_head? (by simp [h0])
  exact progressScorerEvents_total_rounds _ _ _ _ e0 hm

/-- C1 witness: the ridge default grid has 7 alpha candidates, so all
35 callback invocations of a ridge search carry total_rounds 35. -/
theorem C1_witness :
    modelTune constFitter ridgeUnit none [] [] true
        = .ok (ridgeWitnessResult, ridgeWitnessEvents) ∧
    ∀ e ∈ ridgeWitnessEvents, e.total_rounds = 35 := by
  have h := (C1_total_rounds constFitter ridgeUnit none [] [] ridgeWitnessResult
    ridgeWitnessEvents rfl).1
  refine ⟨rfl, fun e he => ?_⟩
  have h35 : gridProduct ((none : Option ParamGrid).getD ridgeUnit.defaultGrid) * 5 = 35 := by
    decide
  rw [← h35]
  exact h e he

/-- C7: with a callback supplied, the invocations in execution order
carry rounds 1, 2, 3, …, exactly one per fold evaluation; each payload
has percentage round / total_rounds * 100 and an empty metrics map;
and the payloads' parameter maps are the estimator parameters of the
current combination, five consecutive invocations per combination in
enumeration order. -/
theorem C7_progress_protocol (fitter : Fitter) (unit : RegressionUnit)
    (paramGrid : Option ParamGrid) (x : List (List Rat)) (y : List Rat)
    (res : TuneResult) (events : List ProgressInfo)
    (hok : modelTune fitter unit paramGrid x y true = .ok (res, events)) :
    events.map (fun e => e.round)
        = List.range' 1 (gridProduct (paramGrid.getD unit.defaultGrid) * 5) ∧
    (∀ e ∈ events,
        e.percentage = (e.round : Rat) / (e.total_rounds : Rat) * 100
          ∧ e.metrics = []) ∧
    events.map (fun e => e.params)
        = foldEvalParams unit.baseParams
            (gridCombos (sortItems (paramGrid.getD unit.defaultGrid))) 5 := by
  have hev := modelTune_ok fitter unit paramGrid x y true res events hok
  subst hev
  refine ⟨?_, ?_, progressScorerEvents_params _ _ _⟩
  · rw [progressScorerEvents_rounds, foldEvalParams_length, gridCombos_length,
      sortItems_gridProduct]
  · intro e he
    obtain ⟨hp, hm⟩ := progressScorerEvents_shape _ _ _ e he
    have ht := progressScorerEvents_total_rounds true _ _ _ e he
    rw [ht]
    exact ⟨hp, hm⟩

/-- C7 witness: the adaboost default grid has 27 combinations, so an
adaboost search invokes the callback 135 times with rounds 1..135. -/
theorem C7_witness :
    modelTune constFitter adaBoostUnit none [] [] true
        = .ok (adaWitnessResult, adaWitnessEvents) ∧
    adaWitnessEvents.map (fun e => e.round) = List.range' 1 135 := by
  have hok : modelTune constFitter adaBoostUnit none [] [] true
      = .ok (adaWitnessResult, adaWitnessEvents) := by
    unfold modelTune parameterGridMake adaWitnessResult adaWitnessEvents
      adaWitnessScores
    rfl
  have h := (C7_progress_protocol constFitter adaBoostUnit none [] []
    adaWitnessResult adaWitnessEvents hok).1
  refine ⟨hok, ?_⟩
  have h135 : gridProduct ((none : Option ParamGrid).getD adaBoostUnit.defaultGrid) * 5 = 135 := by
    decide
  rw [h135] at h
  exact h

/-- C8: for a fixed input table, feature and target columns and model
identifier, with no custom grid, the tuning run is a deterministic
function of its inputs: ambient process entropy (the only
nondeterminism channel, consumed solely by an unseeded split) never
reaches the run because the 20 percent hold-out split is seeded with
the fixed random_state 42, so two runs agree on every emitted event,
on best_params and on all six train/test metrics; the held-out side
has ceil(n/5) rows of the seed-42 permutation. -/
theorem C8_determinism (env : MLEnv) (modelName inputFile : String)
    (featureColumns : List String) (targetColumn : String) (e1 e2 : Nat) :
    tuneRegressionModelRun env modelName inputFile featureColumns targetColumn none e1
      = tuneRegressionModelRun env modelName inputFile featureColumns targetColumn none e2 ∧
    (∀ n, trainTestSplit n (1 / 5) (some 42) e1
        = trainTestSplit n (1 / 5) (some 42) e2) ∧
    (∀ n, (trainTestSplit n (1 / 5) (some 42) e1).testIdx
        = (shuffleIndices 42 n).take (ceilFrac ((1 / 5 : Rat) * (n : Rat)))) ∧
    (∀ n, (trainTestSplit n (1 / 5) (some 42) e1).testIdx.length
        = min (ceilFrac ((1 / 5 : Rat) * (n : Rat))) n) := by
  refine ⟨rfl, fun n => rfl, fun n => rfl, fun n => ?_⟩
  exact trainTestSplit_testIdx_length n (1 / 5) (some 42) e1

/-- C10: create_model mutates its caller: whenever the params dict
holds estimator__max_depth, the call removes that key from the
caller's dict, so the mapping after the call differs from the one
passed in. -/
theorem C10_mutates_params (ps : Dict PyVal) (v : PyVal)
    (h : dictLookup ps "estimator__max_depth" = some v) :
    (adaBoostCreateModel (some ps)).paramsAfter
        = some (dictErase ps "estimator__max_depth") ∧
    (adaBoostCreateModel (some ps)).paramsAfter ≠ some ps := by
  have hne : ps.isEmpty = false := by
    cases ps with
    | nil => simp [dictLookup] at h
    | cons p rest => rfl
  have hc : dictContains ps "estimator__max_depth" = true := by
    simp [dictContains, h]
  have heff : (adaBoostCreateModel (some ps)).paramsAfter
      = some (dictErase ps "estimator__max_depth") := by
    simp [adaBoostCreateModel, hne, hc, h]
  refine ⟨heff, ?_⟩
  rw [heff]
  intro heq
  have herase : dictErase ps "estimator__max_depth" = ps := by
    simpa using heq
  have hnone := dictLookup_erase_self ps "estimator__max_depth"
  rw [herase, h] at hnone
  exact Option.noConfusion hnone

/-- C10 witness: popping estimator__max_depth from a concrete
two-entry dict leaves a one-entry dict that differs from the original. -/
theorem C10_witness :
    (adaBoostCreateModel (some [("estimator__max_depth", PyVal.int 5),
        ("n_estimators", PyVal.int 100)])).paramsAfter
      = some [("n_estimators", PyVal.int 100)] ∧
    (adaBoostCreateModel (some [("estimator__max_depth", PyVal.int 5),
        ("n_estimators", PyVal.int 100)])).paramsAfter
      ≠ some [("estimator__max_depth", PyVal.int 5),
              ("n_estimators", PyVal.int 100)] := by
  have h := C10_mutates_params
    [("estimator__max_depth", PyVal.int 5), ("n_estimators", PyVal.int 100)]
    (PyVal.int 5) rfl
  exact ⟨by rw [h.1]; rfl, h.2⟩

/-- C6 counterexample: create_model does not strip a general
estimator-prefixed entry: estimator__min_samples_split is left intact
in the dict forwarded to set_params (its key still contains the
double-underscore separator) and the inner decision tree is
constructed with the default depth 3 only, never seeing that
parameter at construction time. -/
theorem C6_counterexample :
    (adaBoostCreateModel
        (some [("estimator__min_samples_split", PyVal.int 4)])).setParamsArgs
      = [("estimator__min_samples_split", PyVal.int 4)] ∧
    hasDunder "estimator__min_samples_split" = true ∧
    (adaBoostCreateModel
        (some [("estimator__min_samples_split", PyVal.int 4)])).innerCtorArgs
      = [("max_depth", PyVal.int 3)] := by
  exact ⟨rfl, by decide, rfl⟩

/-- C6 amended: the one estimator-prefixed entry of the declared grid,
estimator__max_depth, is stripped and used to construct the inner
weak-learner estimator before the ensemble is constructed (the inner
estimator receives max_depth), and the ensemble's constructor receives
no key containing the double underscore; any other estimator__ entry
is instead forwarded unchanged to set_params after construction. -/
theorem C6_estimator_prefix (ps : Dict PyVal) (v : PyVal)
    (h : dictLookup ps "estimator__max_depth" = some v) :
    (adaBoostCreateModel (some ps)).innerCtorArgs = [("max_depth", v)] ∧
    dictContains (adaBoostCreateModel (some ps)).setParamsArgs
        "estimator__max_depth" = false ∧
    ∀ k ∈ (adaBoostCreateModel (some ps)).outerCtorKeys, hasDunder k = false := by
  have hne : ps.isEmpty = false := by
    cases ps with
    | nil => simp [dictLookup] at h
    | cons p rest => rfl
  have hc : dictContains ps "estimator__max_depth" = true := by
    simp [dictContains, h]
  refine ⟨?_, ?_, ?_⟩
  · simp [adaBoostCreateModel, hne, hc, h]
  · have hs : (adaBoostCreateModel (some ps)).setParamsArgs
        = if (dictErase ps "estimator__max_depth").isEmpty then []
          else dictErase ps "estimator__max_depth" := by
      simp [adaBoostCreateModel, hne, hc, h]
    rw [hs]
    split
    · rfl
    · simp [dictContains, dictLookup_erase_self]
  · have ho : (adaBoostCreateModel (some ps)).outerCtorKeys
        = ["estimator", "random_state"] := rfl
    rw [ho]
    intro k hk
    simp only [List.mem_cons, List.mem_singleton, List.not_mem_nil] at hk
    rcases hk with rfl | rfl | h2
    · decide
    · decide
    · exact absurd h2 (by simp)

/-- C6 witness: with estimator__max_depth 5 supplied, the inner tree
is constructed with max_depth 5 and the stripped key is absent from
the set_params arguments. -/
theorem C6_witness :
    (adaBoostCreateModel (some [("estimator__max_depth", PyVal.int 5)])).innerCtorArgs
      = [("max_depth", PyVal.int 5)] ∧
    dictContains (adaBoostCreateModel
        (some [("estimator__max_depth", PyVal.int 5)])).setParamsArgs
        "estimator__max_depth" = false := by
  have h := C6_estimator_prefix [("estimator__max_depth", PyVal.int 5)]
    (PyVal.int 5) rfl
  exact ⟨h.1, h.2.1⟩

/-- C3 counterexample: the custom grid mentioning only n_estimators
does not fully replace the adaboost default grid: the instantiated
grid retains the declared default candidate values of learning_rate
(and of estimator__max_depth), so default candidates of parameters the
caller never mentioned are searched. -/
theorem C3_counterexample :
    buildParamGridInstance (some adaBoostGridClass)
        (some [("n_estimators", [PyVal.int 50])])
      = some [("n_estimators", [PyVal.int 50]),
              ("learning_rate",
               [PyVal.float (1 / 100), PyVal.float (1 / 10), PyVal.float 1]),
              ("estimator__max_depth",
               [PyVal.int 3, PyVal.int 5, PyVal.int 7])] ∧
    dictLookup ((buildParamGridInstance (some adaBoostGridClass)
          (some [("n_estimators", [PyVal.int 50])])).getD [])
        "learning_rate"
      = some [PyVal.float (1 / 100), PyVal.float (1 / 10), PyVal.float 1] := by
  exact ⟨rfl, rfl⟩

/-- C3 amended: a custom grid is instantiated into the unit's declared
pydantic ParamGrid class, so it is merged with the defaults rather
than replacing them: the searched grid has exactly the declared
parameter names, a parameter mentioned in the custom grid carries the
caller's (coerced) candidates, and every declared parameter not
mentioned keeps its default candidate values; undeclared names are
ignored. -/
theorem C3_merge_semantics (cls : ParamGridClass) (d : Dict (List PyVal))
    (g : ParamGrid) (hok : instantiateGridClass cls d = .ok g) :
    g.map (fun p => p.1) = cls.map (fun f => f.name) ∧
    (∀ f ∈ cls, dictLookup d f.name = none → (f.name, f.dflt) ∈ g) ∧
    (∀ f ∈ cls, ∀ vs, dictLookup d f.name = some vs →
       ∀ ws, vs.mapM (coerceElem f.elemTy) = some ws → (f.name, ws) ∈ g) := by
  induction cls generalizing g with
  | nil =>
    simp only [instantiateGridClass, List.mapM_nil, pure, Except.pure,
      Except.ok.injEq] at hok
    subst hok
    simp
  | cons f rest ih =>
    rw [instantiateGridClass, List.mapM_cons] at hok
    cases hf : instantiateField d f with
    | error e => rw [hf] at hok; simp [bind, Except.bind] at hok
    | ok a =>
      rw [hf] at hok
      cases hm : rest.mapM (instantiateField d) with
      | error e =>
        rw [hm] at hok; simp [bind, Except.bind, pure, Except.pure] at hok
      | ok t =>
        rw [hm] at hok
        simp only [bind, Except.bind, pure, Except.pure, Except.ok.injEq] at hok
        subst hok
        obtain ⟨h1, h2, h3⟩ := ih t hm
        have hfa := instantiateField_ok d f a hf
        have ha1 : a.1 = f.name := by
          rcases hfa with ⟨_, rfl⟩ | ⟨vs, ws, _, _, rfl⟩ <;> rfl
        refine ⟨by simp [h1, ha1], ?_, ?_⟩
        · intro f2 hf2 hnone
          rcases List.mem_cons.mp hf2 with rfl | hf2
          · rcases hfa with ⟨_, rfl⟩ | ⟨vs, ws, hvs, _, rfl⟩
            · exact List.mem_cons_self _ _
            · rw [hnone] at hvs; exact Option.noConfusion hvs
          · exact List.mem_cons_of_mem _ (h2 f2 hf2 hnone)
        · intro f2 hf2 vs hvs ws hws
          rcases List.mem_cons.mp hf2 with rfl | hf2
          · rcases hfa with ⟨hnone, rfl⟩ | ⟨vs2, ws2, hvs2, hws2, rfl⟩
            · rw [hnone] at hvs; exact Option.noConfusion hvs
            · rw [hvs] at hvs2
              have hv : vs2 = vs := (Option.some.injEq _ _).mp hvs2.symm
              subst hv
              rw [hws] at hws2
              have hw : ws2 = ws := (Option.some.injEq _ _).mp hws2.symm
              subst hw
              exact List.mem_cons_self _ _
          · exact List.mem_cons_of_mem _ (h3 f2 hf2 vs hvs ws hws)

/-- C3 amended witness: instantiating the adaboost grid class with a
custom grid naming only n_estimators keeps the declared names, and the
unmentioned learning_rate field keeps its default candidates. -/
theorem C3_witness :
    ([("n_estimators", [PyVal.int 50]),
      ("learning_rate",
       [PyVal.float (1 / 100), PyVal.float (1 / 10), PyVal.float 1]),
      ("estimator__max_depth",
       [PyVal.int 3, PyVal.int 5, PyVal.int 7])] : ParamGrid).map (fun p => p.1)
      = adaBoostGridClass.map (fun f => f.name) ∧
    ("learning_rate",
     [PyVal.float (1 / 100), PyVal.float (1 / 10), PyVal.float 1])
      ∈ ([("n_estimators", [PyVal.int 50]),
          ("learning_rate",
           [PyVal.float (1 / 100), PyVal.float (1 / 10), PyVal.float 1]),
          ("estimator__max_depth",
           [PyVal.int 3, PyVal.int 5, PyVal.int 7])] : ParamGrid) := by
  have h := C3_merge_semantics adaBoostGridClass [("n_estimators", [PyVal.int 50])]
    _ rfl
  refine ⟨h.1, ?_⟩
  exact h.2.1
    (PGField.mk "learning_rate" PyTy.float
      [PyVal.float (1 / 100), PyVal.float (1 / 10), PyVal.float 1])
    (by simp [adaBoostGridClass]) rfl

/-- C4 counterexample: supplying the ridge custom grid with zero
candidates for model__alpha makes the search fail with a ValueError
from grid expansion — there is no ConfigurationError anywhere in the
code, so the error raised is not one. -/
theorem C4_counterexample :
    modelTune constFitter ridgeUnit
        (buildParamGridInstance ridgeUnit.gridClass (some [("model__alpha", [])]))
        [] [] true
      = .error (.valueError
          "Parameter grid for parameter model__alpha need to be a non-empty sequence") ∧
    isConfigErr (modelTune constFitter ridgeUnit
        (buildParamGridInstance ridgeUnit.gridClass (some [("model__alpha", [])]))
        [] [] true) = false := by
  exact ⟨rfl, rfl⟩

/-- C4 amended: a custom grid that passes validation and carries zero
candidate values for some parameter is rejected by grid expansion with
a ValueError before any fold evaluation (the search returns the error
instead of a result), the empty candidate list having been preserved
rather than silently replaced by that parameter's defaults; the error
is not the spec's ConfigurationError, which exists nowhere in the
code. -/
theorem C4_empty_candidates (fitter : Fitter) (unit : RegressionUnit)
    (cls : ParamGridClass) (d : Dict (List PyVal)) (g : ParamGrid)
    (x : List (List Rat)) (y : List Rat)
    (hcls : unit.gridClass = some cls)
    (hne : d.isEmpty = false)
    (hinst : instantiateGridClass cls d = .ok g)
    (p : String × List PyVal) (hp : p ∈ g) (hempty : p.2 = []) :
    (∃ msg, modelTune fitter unit
        (buildParamGridInstance unit.gridClass (some d)) x y true
      = .error (.valueError msg)) ∧
    isConfigErr (modelTune fitter unit
        (buildParamGridInstance unit.gridClass (some d)) x y true) = false := by
  have hbuild : buildParamGridInstance unit.gridClass (some d) = some g := by
    simp [buildParamGridInstance, hcls, hne, hinst]
  have hfind : (g.find? (fun q => q.2.isEmpty)).isSome := by
    rw [List.find?_isSome]
    exact ⟨p, hp, by simp [hempty]⟩
  obtain ⟨q, hq⟩ := Option.isSome_iff_exists.mp hfind
  have hmk : parameterGridMake g
      = .error (.valueError ("Parameter grid for parameter " ++ q.1
          ++ " need to be a non-empty sequence")) := by
    unfold parameterGridMake
    rw [hq]
  have htune : modelTune fitter unit
      (buildParamGridInstance unit.gridClass (some d)) x y true
      = .error (.valueError ("Parameter grid for parameter " ++ q.1
          ++ " need to be a non-empty sequence")) := by
    rw [hbuild]
    simp only [modelTune, Option.getD_some, hmk, bind, Except.bind]
  exact ⟨⟨_, htune⟩, by rw [htune]; rfl⟩

/-- C4 witness: the concrete empty-candidate ridge grid is rejected
with an error that is not a ConfigurationError. -/
theorem C4_witness :
    isConfigErr (modelTune constFitter ridgeUnit
        (buildParamGridInstance ridgeUnit.gridClass (some [("model__alpha", [])]))
        [] [] true) = false := by
  exact (C4_empty_candidates constFitter ridgeUnit ridgeGridClass
    [("model__alpha", [])] [("model__alpha", [])] [] [] rfl rfl rfl
    ("model__alpha", []) (by simp) rfl).2

theorem scanFold_spec (category : String) (ts : List PyUnit)
    (acc : List ModelMetadata × List ScanSkip) :
    ts.foldl (fun acc u =>
      match scanUnit category u with
      | .ok md => (acc.1 ++ [md], acc.2)
      | .error w => (acc.1, acc.2 ++ [w])) acc
    = (acc.1 ++ ts.filterMap (fun u => (scanUnit category u).toOption),
       acc.2 ++ ts.filterMap (fun u =>
         match scanUnit category u with
         | .error w => some w
         | .ok _ => none)) := by
  induction ts generalizing acc with
  | nil => simp
  | cons u rest ih =>
    simp only [List.foldl_cons, List.filterMap_cons]
    cases h : scanUnit category u with
    | ok md => rw [ih]; simp [Except.toOption]
    | error w => rw [ih]; simp [Except.toOption]

theorem scanModelsInDirectory_spec (category : String) (units : List PyUnit) :
    scanModelsInDirectory category units
      = ((scanTargets units).filterMap (fun u => (scanUnit category u).toOption),
         (scanTargets units).filterMap (fun u =>
           match scanUnit category u with
           | .error w => some w
           | .ok _ => none)) := by
  unfold scanModelsInDirectory
  rw [scanFold_spec]
  simp

theorem scanWarn_length (category : String) (ts : List PyUnit) :
    (ts.filterMap (fun u =>
       match scanUnit category u with
       | .error w => some w
       | .ok _ => none)).length
      = (ts.filter (fun u => !(scanUnit category u).toOption.isSome)).length := by
  induction ts with
  | nil => rfl
  | cons u rest ih =>
    cases h : scanUnit category u <;> simp [h, Except.toOption, ih]

/-- C9: the catalog scan never aborts on a broken unit: the returned
document reports success, its models are exactly the cleanly scanned
units of the visited files in order, its count equals the length of
that list, one warning is recorded per failing unit, and the metadata
of every unit that scans cleanly is present in the document no matter
which other units fail. -/
theorem C9_scan_partial_failure (units : List PyUnit) :
    (scanMain units).success = true ∧
    (scanMain units).count = (scanMain units).models.length ∧
    (scanMain units).models
      = (scanTargets units).filterMap
          (fun u => (scanUnit "regression" u).toOption) ∧
    (scanModelsInDirectory "regression" units).2.length
      = ((scanTargets units).filter
          (fun u => !(scanUnit "regression" u).toOption.isSome)).length ∧
    ∀ u ∈ scanTargets units, ∀ md, scanUnit "regression" u = .ok md →
      md ∈ (scanMain units).models := by
  have hspec := scanModelsInDirectory_spec "regression" units
  have hmodels : (scanMain units).models
      = (scanTargets units).filterMap
          (fun u => (scanUnit "regression" u).toOption) := by
    simp [scanMain, hspec]
  refine ⟨rfl, rfl, hmodels, ?_, ?_⟩
  · rw [hspec]
    exact scanWarn_length "regression" (scanTargets units)
  · intro u hu md hmd
    rw [hmodels]
    exact List.mem_filterMap.mpr ⟨u, hu, by rw [hmd]; rfl⟩

/-- The regression directory of the broken-unit scenario: ridge scans
cleanly, k_nearest_neighbors has no ParamGrid class (its generic base
is unsubscripted), and base.py is skipped up front. -/
def scanWitnessUnits : List PyUnit :=
  [{ stem := "ridge", gridClass := some ridgeGridClass },
   { stem := "k_nearest_neighbors" },
   { stem := "base" }]

/-- C9 witness: with the broken k_nearest_neighbors unit present, the
ridge metadata is still in the returned catalog. -/
theorem C9_witness :
    ModelMetadata.mk "regression" "regression.ridge" (labelOf "ridge")
        (paramGridSchema ridgeGridClass)
      ∈ (scanMain scanWitnessUnits).models := by
  have h := (C9_scan_partial_failure scanWitnessUnits).2.2.2.2
  refine h { stem := "ridge", gridClass := some ridgeGridClass } ?_ _ rfl
  simp [scanTargets, scanWitnessUnits]

theorem tuneRun_events_log (env : MLEnv) (modelName inputFile : String)
    (featureColumns : List String) (targetColumn : String)
    (paramGridDict : Option (Dict (List PyVal))) (entropy : Nat) :
    ∀ ev ∈ (tuneRegressionModelRun env modelName inputFile featureColumns
      targetColumn paramGridDict entropy).1, ev.ty = "log" := by
  intro ev hev
  simp only [tuneRegressionModelRun] at hev
  repeat' split at hev
  all_goals
    simp only [callbackStdoutEvents_nil, List.append_nil, List.mem_append,
      List.not_mem_nil, or_false, false_or] at hev
  all_goals
    try casesm* _ ∨ _
  all_goals
    first
      | exact emitLog_ty _ _ _ (by assumption)
      | exact metricLogLines_ty _ (by assumption)

theorem tuneMainCatch_spec (evs : List OutEvent) (e : ErrKind)
    (hlog : ∀ ev ∈ evs, ev.ty = "log") :
    ((tuneMainCatch evs e).events.filter (fun ev => ev.ty == "status")).length = 0 ∧
    ((tuneMainCatch evs e).events.filter (fun ev => ev.ty == "result")).length = 0 ∧
    (∃ m, OutEvent.log "ERROR" 17 m ∈ (tuneMainCatch evs e).events) ∧
    (tuneMainCatch evs e).exitCode = 1 ∧
    (tuneMainCatch evs e).outputTable = none := by
  have hall : ∀ ev ∈ (tuneMainCatch evs e).events, ev.ty = "log" := by
    intro ev hev
    simp only [tuneMainCatch, List.mem_append] at hev
    rcases hev with (h | h) | h
    · exact hlog ev h
    · exact emitLog_ty _ _ _ h
    · exact emitLog_ty _ _ _ h
  refine ⟨?_, ?_, ?_, rfl, rfl⟩
  · have hnil : List.filter (fun ev => ev.ty == "status")
        (tuneMainCatch evs e).events = [] := by
      apply List.filter_eq_nil_iff.mpr
      intro ev hev
      simp [hall ev hev]
    rw [hnil]
    rfl
  · have hnil : List.filter (fun ev => ev.ty == "result")
        (tuneMainCatch evs e).events = [] := by
      apply List.filter_eq_nil_iff.mpr
      intro ev hev
      simp [hall ev hev]
    rw [hnil]
    rfl
  · refine ⟨"Error during hyperparameter tuning: " ++ errMessage e, ?_⟩
    simp only [tuneMainCatch, List.mem_append]
    left; right
    simp [emitLog, severityMapping]

/-- C5 amended: every failing run (any exception caught by the
orchestrator's handler, the unknown-model identifier included) emits
no status event at all — emit_status exists in structured_output but
is never called — and instead writes ERROR-severity log events
carrying the message and traceback, emits no result event, exits with
code 1, and writes no output table. -/
theorem C5_failure_events (env : MLEnv) (cfg : TuneConfig) (entropy : Nat)
    (h : (tuneMain env cfg entropy).exitCode = 1) :
    ((tuneMain env cfg entropy).events.filter
        (fun ev => ev.ty == "status")).length = 0 ∧
    ((tuneMain env cfg entropy).events.filter
        (fun ev => ev.ty == "result")).length = 0 ∧
    (∃ m, OutEvent.log "ERROR" 17 m ∈ (tuneMain env cfg entropy).events) ∧
    (tuneMain env cfg entropy).outputTable = none := by
  have hlog0 : ∀ ev ∈ emitLog "Reading input configuration from stdin" 20,
      ev.ty = "log" := emitLog_ty _ _
  cases hin : cfg.inputFile with
  | none =>
    have hs := tuneMainCatch_spec _ (.valueError "inputFile is required") hlog0
    simp only [tuneMain, hin] at *
    exact ⟨hs.1, hs.2.1, hs.2.2.1, hs.2.2.2.2⟩
  | some inputFile =>
  cases hmo : cfg.model with
  | none =>
    have hs := tuneMainCatch_spec _ (.valueError "model is required") hlog0
    simp only [tuneMain, hin, hmo] at *
    exact ⟨hs.1, hs.2.1, hs.2.2.1, hs.2.2.2.2⟩
  | some modelName =>
  cases hfc : cfg.featureColumns with
  | none =>
    have hs := tuneMainCatch_spec _ (.valueError "featureColumns is required") hlog0
    simp only [tuneMain, hin, hmo, hfc] at *
    exact ⟨hs.1, hs.2.1, hs.2.2.1, hs.2.2.2.2⟩
  | some featureColumns =>
  cases htc : cfg.targetColumn with
  | none =>
    have hs := tuneMainCatch_spec _ (.valueError "targetColumn is required") hlog0
    simp only [tuneMain, hin, hmo, hfc, htc] at *
    exact ⟨hs.1, hs.2.1, hs.2.2.1, hs.2.2.2.2⟩
  | some targetColumn =>
  have hlog1 : ∀ ev ∈ emitLog "Reading input configuration from stdin" 20
      ++ emitLog ("Starting hyperparameter tuning for " ++ modelName) 20,
      ev.ty = "log" := by
    intro ev hev
    rcases List.mem_append.mp hev with h1 | h1
    · exact emitLog_ty _ _ _ h1
    · exact emitLog_ty _ _ _ h1
  cases hpre : strStartsWith modelName "regression." with
  | false =>
    have hs := tuneMainCatch_spec _
      (.valueError ("Unknown model type for " ++ modelName)) hlog1
    simp only [tuneMain, hin, hmo, hfc, htc, hpre, Bool.false_eq_true,
      if_false] at *
    exact ⟨hs.1, hs.2.1, hs.2.2.1, hs.2.2.2.2⟩
  | true =>
    cases hrun : (tuneRegressionModelRun env modelName inputFile featureColumns
        targetColumn cfg.paramGrid entropy).2 with
    | error e =>
      have hlog2 : ∀ ev ∈ (emitLog "Reading input configuration from stdin" 20
          ++ emitLog ("Starting hyperparameter tuning for " ++ modelName) 20)
          ++ (tuneRegressionModelRun env modelName inputFile featureColumns
              targetColumn cfg.paramGrid entropy).1,
          ev.ty = "log" := by
        intro ev hev
        rcases List.mem_append.mp hev with h1 | h1
        · exact hlog1 ev h1
        · exact tuneRun_events_log env modelName inputFile featureColumns
            targetColumn cfg.paramGrid entropy ev h1
      have hs := tuneMainCatch_spec _ e hlog2
      simp only [tuneMain, hin, hmo, hfc, htc, hpre, if_true, hrun] at *
      exact ⟨hs.1, hs.2.1, hs.2.2.1, hs.2.2.2.2⟩
    | ok v =>
      simp only [tuneMain, hin, hmo, hfc, htc, hpre, if_true, hrun] at h
      exact absurd h (by simp)

/-- C5 counterexample: the unknown identifier regression.doesnotexist
makes the run fail (exit code 1), yet zero events of type status are
emitted — the claim demands exactly one status failed event. -/
theorem C5_counterexample :
    ((tuneMain sampleEnv unknownModelCfg 0).events.filter
        (fun ev => ev.ty == "status")).length = 0 ∧
    (tuneMain sampleEnv unknownModelCfg 0).exitCode = 1 := by
  exact ⟨rfl, rfl⟩

/-- C5 witness: the failing unknown-model run emits no result event
and writes no output table. -/
theorem C5_witness :
    ((tuneMain sampleEnv unknownModelCfg 0).events.filter
        (fun ev => ev.ty == "result")).length = 0 ∧
    (tuneMain sampleEnv unknownModelCfg 0).outputTable = none := by
  have h := C5_failure_events sampleEnv unknownModelCfg 0 rfl
  exact ⟨h.2.1, h.2.2.2⟩

/-- The stdin configuration of a concrete prediction run over the
sample environment. -/
def samplePredictCfg : PredictConfig :=
  { trainingDataPath := some "data.xlsx"
    predictionDataPath := some "data.xlsx"
    outputPath := some "out.xlsx"
    model := some "regression.ridge"
    params := [("model__alpha", PyVal.float 1)]
    featureColumns := some ["a", "b"]
    targetColumn := some "y" }

/-- C2: the event protocol is broken in the code on two points. First,
the progress callback of the tuning orchestrator invokes the
nonexistent progress method of StructuredLogger, so its first call
raises AttributeError and no line of type progress is ever written for
any payload of a search (the engine's scoring-error handling swallows
the exception, so the stream simply lacks progress events). Second, a
successful prediction run's terminal event carries the type
prediction_result, which lies outside the declared discriminator set,
so that run emits exactly one off-protocol line while exiting 0. -/
theorem C2_code_bug :
    progressCallbackEmit (ProgressInfo.mk (20 / 7) 1 35 []
        [("model__alpha", PyVal.float (1 / 10000))])
      = .error (.attributeError
          "StructuredLogger object has no attribute progress") ∧
    callbackStdoutEvents ridgeWitnessEvents = [] ∧
    OutEvent.ty (.predictionResult "out.xlsx" 10 "regression.ridge")
      = "prediction_result" ∧
    "prediction_result" ∉ allowedEventTypes ∧
    ((predictMain sampleEnv samplePredictCfg).events.filter
        (fun ev => !(allowedEventTypes.contains ev.ty))).length = 1 ∧
    (predictMain sampleEnv samplePredictCfg).exitCode = 0 := by
  refine ⟨rfl, callbackStdoutEvents_nil _, rfl, by decide, rfl, rfl⟩

end Xenix
